import Mathlib

/-!
Shallow embedding of the SB Mini II keyboard controller core (src/main.c).

The controller converts USB HID keyboard reports into 7-bit parallel ASCII
output with strobe and reset pulses.  The embedding models:

* the two HID-keycode-to-ASCII lookup tables,
* hid_to_ascii (shift, control and caps-lock resolution),
* is_new_key (report differencing),
* process_kbd_report (the per-report state machine), where the GPIO side
  effects of output_key and pulse_reset are modelled as a list of output
  events in emission order (a strobe event carries the 7-bit value placed
  on the data lines before the strobe pulse),
* tuh_hid_umount_cb (the keyboard-detach callback), whose sole state effect
  is the memset of prev_report.

Machine integers: keycodes, modifier bytes and ASCII values are uint8_t in
the source; every operation used (table indexing, bit masking, comparison,
and keycode - HID_KEY_A + 1 on the letter range) stays within 0..255, so
they are modelled as Nat with no wrap-around.
-/

-- ---------------------------------------------------------------------------
-- Constants from the source and the HID headers it includes
-- ---------------------------------------------------------------------------

def HID_KEY_A : Nat := 0x04

def HID_KEY_Z : Nat := 0x1D

def HID_KEY_CAPS_LOCK : Nat := 0x39

def HID_KEY_PRINT_SCREEN : Nat := 0x46

def KEYBOARD_MODIFIER_LEFTCTRL : Nat := 0x01

def KEYBOARD_MODIFIER_LEFTSHIFT : Nat := 0x02

def KEYBOARD_MODIFIER_RIGHTCTRL : Nat := 0x10

def KEYBOARD_MODIFIER_RIGHTSHIFT : Nat := 0x20

-- ---------------------------------------------------------------------------
-- HID keycode to ASCII lookup tables (indexed 0x00 - 0x52, 83 entries)
-- ---------------------------------------------------------------------------

def keycode_to_ascii : List Nat :=
  [0, 0, 0, 0, 97, 98, 99, 100, 101, 102, 103, 104, 105, 106, 107, 108,
   109, 110, 111, 112, 113, 114, 115, 116, 117, 118, 119, 120, 121, 122, 49, 50,
   51, 52, 53, 54, 55, 56, 57, 48, 13, 0x1B, 0x7F, 9, 32, 45, 61, 91,
   93, 92, 0, 59, 39, 96, 44, 46, 47, 0, 0, 0, 0, 0, 0, 0,
   0, 0, 0, 0, 0, 0, 0, 0, 0, 0, 0, 0, 0x7F, 0, 0, 0x15,
   0x08, 0x0A, 0x0B]

def keycode_to_ascii_shift : List Nat :=
  [0, 0, 0, 0, 65, 66, 67, 68, 69, 70, 71, 72, 73, 74, 75, 76,
   77, 78, 79, 80, 81, 82, 83, 84, 85, 86, 87, 88, 89, 90, 33, 64,
   35, 36, 37, 94, 38, 42, 40, 41, 13, 0x1B, 0x7F, 9, 32, 95, 43, 123,
   125, 124, 0, 58, 34, 126, 60, 62, 63, 0, 0, 0, 0, 0, 0, 0,
   0, 0, 0, 0, 0, 0, 0, 0, 0, 0, 0, 0, 0x7F, 0, 0, 0x15,
   0x08, 0x0A, 0x0B]

def KEYCODE_TABLE_SIZE : Nat := keycode_to_ascii.length

-- ---------------------------------------------------------------------------
-- Data model
-- ---------------------------------------------------------------------------

/-- The boot-protocol keyboard report: a modifier byte and six keycode
slots (the reserved byte of the C struct is never read and is omitted). -/
structure hid_keyboard_report_t where
  modifier : Nat
  keycode : List Nat
deriving Repr, DecidableEq

/-- The two pieces of persistent state owned by the report processor. -/
structure KbdState where
  prev_report : hid_keyboard_report_t
  caps_lock : Bool
deriving Repr, DecidableEq

/-- Observable output of one report: output_key(a) is a strobe event
carrying the 7-bit value a, pulse_reset is a reset event. -/
inductive OutEvent where
  | strobe (ascii : Nat) : OutEvent
  | reset : OutEvent
deriving Repr, DecidableEq

/-- The all-zero report produced by memset in the detach callback. -/
def empty_report : hid_keyboard_report_t :=
  { modifier := 0, keycode := [0, 0, 0, 0, 0, 0] }

-- ---------------------------------------------------------------------------
-- Keycode conversion (hid_to_ascii)
-- ---------------------------------------------------------------------------

/-- Either shift modifier bit is set. -/
def shift_b (modifier : Nat) : Bool :=
  (modifier &&& (KEYBOARD_MODIFIER_LEFTSHIFT ||| KEYBOARD_MODIFIER_RIGHTSHIFT)) != 0

/-- Either control modifier bit is set. -/
def ctrl_b (modifier : Nat) : Bool :=
  (modifier &&& (KEYBOARD_MODIFIER_LEFTCTRL ||| KEYBOARD_MODIFIER_RIGHTCTRL)) != 0

/-- The keycode falls in the alphabetic range HID_KEY_A .. HID_KEY_Z. -/
def is_letter_b (keycode : Nat) : Bool :=
  decide (HID_KEY_A ≤ keycode) && decide (keycode ≤ HID_KEY_Z)

/-- hid_to_ascii from main.c; caps_lock is the global read by the C code,
passed explicitly.  List.getD returns the default 0 out of range, matching
the explicit range guard of the source. -/
def hid_to_ascii (caps_lock : Bool) (keycode : Nat) (modifier : Nat) : Nat :=
  if KEYCODE_TABLE_SIZE ≤ keycode then
    0
  else
    let shift := shift_b modifier
    let ctrl := ctrl_b modifier
    let il := is_letter_b keycode
    let shift := if caps_lock && il then !shift else shift
    let ascii := if shift then keycode_to_ascii_shift.getD keycode 0
                 else keycode_to_ascii.getD keycode 0
    if ctrl && il then (keycode - HID_KEY_A) + 1 else ascii

-- ---------------------------------------------------------------------------
-- Report processing
-- ---------------------------------------------------------------------------

/-- is_new_key from main.c: true iff the keycode equals none of the six
slots of the previous report. -/
def is_new_key (keycode : Nat) (prev : hid_keyboard_report_t) : Bool :=
  !(prev.keycode.contains keycode)

/-- The body of the per-slot loop of process_kbd_report, as the list of
output events it emits for one slot. -/
def process_slot (caps : Bool) (prev : hid_keyboard_report_t) (modifier : Nat)
    (keycode : Nat) : List OutEvent :=
  if keycode == 0 then []
  else if !(is_new_key keycode prev) then []
  else if keycode == HID_KEY_PRINT_SCREEN && ctrl_b modifier then [OutEvent.reset]
  else
    let ascii := hid_to_ascii caps keycode modifier
    if ascii != 0 then [OutEvent.strobe ascii] else []

/-- The per-slot loop over all six slots, events concatenated in slot order. -/
def slot_events (caps : Bool) (prev : hid_keyboard_report_t) (modifier : Nat)
    (ks : List Nat) : List OutEvent :=
  (ks.map (process_slot caps prev modifier)).flatten

/-- The caps-lock toggle loop of process_kbd_report: for each slot holding
the caps-lock keycode that is new relative to the previous report, flip the
flag. -/
def caps_after (report : hid_keyboard_report_t) (prev : hid_keyboard_report_t)
    (caps : Bool) : Bool :=
  report.keycode.foldl
    (fun c k =>
      if k == HID_KEY_CAPS_LOCK && is_new_key HID_KEY_CAPS_LOCK prev then !c else c)
    caps

/-- process_kbd_report from main.c: toggles caps lock on a new caps-lock
press, emits events for each new keypress (using the caps-lock value after
the toggle loop, as the globals do), and stores the report as the new
previous snapshot. -/
def process_kbd_report (st : KbdState) (report : hid_keyboard_report_t) :
    KbdState × List OutEvent :=
  let caps := caps_after report st.prev_report st.caps_lock
  ({ prev_report := report, caps_lock := caps },
   slot_events caps st.prev_report report.modifier report.keycode)

/-- Processing a sequence of reports, accumulating all emitted events. -/
def run_reports (st : KbdState) : List hid_keyboard_report_t →
    KbdState × List OutEvent
  | [] => (st, [])
  | r :: rs =>
    ((run_reports (process_kbd_report st r).1 rs).1,
     (process_kbd_report st r).2 ++ (run_reports (process_kbd_report st r).1 rs).2)

/-- tuh_hid_umount_cb from main.c: the only state effect of the detach
callback is memset of prev_report to zero; caps_lock is not touched.  (The
LED write and the printf have no core state.) -/
def tuh_hid_umount_cb (st : KbdState) : KbdState :=
  { st with prev_report := empty_report }

/-- Contract of the translation table of section 4.1: one lookup indexed by
the effective shift, returning 0 out of range. -/
def table_lookup (shifted : Bool) (k : Nat) : Nat :=
  if shifted then keycode_to_ascii_shift.getD k 0 else keycode_to_ascii.getD k 0

lemma is_new_key_iff_not_mem (k : Nat) (p : hid_keyboard_report_t) :
    is_new_key k p = true ↔ k ∉ p.keycode := by
  simp [is_new_key, List.contains, List.elem_iff]

lemma foldl_toggle (b : Bool) : ∀ (l : List Nat) (c : Bool),
    l.foldl (fun c k => if k == HID_KEY_CAPS_LOCK && b then !c else c) c
      = if b = true ∧ l.count HID_KEY_CAPS_LOCK % 2 = 1 then !c else c
  | [], c => by simp
  | a :: l, c => by
    rw [List.foldl_cons, foldl_toggle b l]
    by_cases hb : b = true
    · subst hb
      by_cases ha : a = HID_KEY_CAPS_LOCK
      · subst ha
        simp only [beq_self_eq_true, Bool.and_true, if_true, List.count_cons,
          beq_self_eq_true, reduceIte]
        by_cases hc : l.count HID_KEY_CAPS_LOCK % 2 = 1
        · rw [if_pos ⟨trivial, hc⟩, if_neg]
          · simp
          · rintro ⟨-, h2⟩
            omega
        · rw [if_neg, if_pos ⟨trivial, by omega⟩]
          rintro ⟨-, h2⟩
          exact hc h2
      · have ha' : (a == HID_KEY_CAPS_LOCK) = false := by
          simpa using ha
        simp [ha', List.count_cons, ha]
    · have hb' : b = false := by
        simpa using hb
      subst hb'
      simp

lemma process_slot_of_mem (caps : Bool) (prev : hid_keyboard_report_t) (m k : Nat)
    (h : k ∈ prev.keycode) : process_slot caps prev m k = [] := by
  have hnew : is_new_key k prev = false := by
    have := (is_new_key_iff_not_mem k prev)
    rcases Bool.eq_false_or_eq_true (is_new_key k prev) with ht | hf
    · exact absurd h (this.mp ht)
    · exact hf
  simp [process_slot, hnew]

lemma slot_events_of_all_mem (caps : Bool) (prev : hid_keyboard_report_t) (m : Nat) :
    ∀ (ks : List Nat), (∀ k ∈ ks, k ∈ prev.keycode) →
      slot_events caps prev m ks = []
  | [], _ => by simp [slot_events]
  | a :: ks, h => by
    simp only [slot_events, List.map_cons, List.flatten_cons]
    rw [process_slot_of_mem caps prev m a (h a (by simp))]
    simpa [slot_events] using
      slot_events_of_all_mem caps prev m ks (fun k hk => h k (by simp [hk]))

lemma caps_after_self (R : hid_keyboard_report_t) (c : Bool) :
    caps_after R R c = c := by
  rw [caps_after, foldl_toggle]
  rw [if_neg]
  rintro ⟨h1, h2⟩
  exact (is_new_key_iff_not_mem _ _).mp h1 (List.count_pos_iff.mp (by omega))

lemma process_fixpoint (st : KbdState) (R : hid_keyboard_report_t) :
    process_kbd_report (process_kbd_report st R).1 R = ((process_kbd_report st R).1, []) := by
  show process_kbd_report
      { prev_report := R, caps_lock := caps_after R st.prev_report st.caps_lock } R = _
  unfold process_kbd_report
  simp only [caps_after_self]
  rw [slot_events_of_all_mem _ _ _ _ (fun k hk => hk)]

lemma run_fix (R : hid_keyboard_report_t) (st : KbdState)
    (h : process_kbd_report st R = (st, [])) :
    ∀ n, run_reports st (List.replicate n R) = (st, [])
  | 0 => by simp [run_reports]
  | n + 1 => by
    rw [List.replicate_succ]
    simp [run_reports, h, run_fix R st h n]

/-- Claim C3: once a report has been processed, processing the identical
report again changes no state and emits no strobe or reset event; hence
across n + 1 consecutive identical reports the events are exactly those of
the first. -/
theorem C3_idempotent_diff :
    ∀ (st : KbdState) (R : hid_keyboard_report_t),
      process_kbd_report (process_kbd_report st R).1 R = ((process_kbd_report st R).1, [])
      ∧ ∀ n : Nat,
          (run_reports st (List.replicate (n + 1) R)).2 = (process_kbd_report st R).2 := by
  intro st R
  refine ⟨process_fixpoint st R, fun n => ?_⟩
  rw [List.replicate_succ]
  simp [run_reports, run_fix R (process_kbd_report st R).1 (process_fixpoint st R) n]

/-- Claim C2 as stated is false: is_new_key performs pure non-membership
and does not itself test that the keycode is non-zero; with a full
previous snapshot, keycode 0 is reported new. -/
theorem C2_counterexample :
    ¬ (is_new_key 0 { modifier := 0, keycode := [4, 5, 6, 7, 8, 9] } = true ↔
       (0 ≠ 0 ∧
        0 ∉ ({ modifier := 0, keycode := [4, 5, 6, 7, 8, 9] } :
              hid_keyboard_report_t).keycode)) := by
  decide

/-- Claim C2 amended: is_new_key reports a keycode as new iff it appears in
none of the slots of the previous snapshot, independent of slot position;
the non-zero test is performed by the caller, not by is_new_key. -/
theorem C2_is_new_key_iff :
    ∀ (k : Nat) (p : hid_keyboard_report_t),
      is_new_key k p = true ↔ k ∉ p.keycode := by
  intro k p
  exact is_new_key_iff_not_mem k p

/-- Claim C1 as stated is false at this input: after detach the caps-lock
flag is not reset to false. -/
theorem C1_counterexample :
    ¬ ((tuh_hid_umount_cb
          { prev_report := { modifier := 0, keycode := [4, 0, 0, 0, 0, 0] },
            caps_lock := true }).prev_report = empty_report
       ∧ (tuh_hid_umount_cb
          { prev_report := { modifier := 0, keycode := [4, 0, 0, 0, 0, 0] },
            caps_lock := true }).caps_lock = false) := by
  decide

/-- Claim C1 amended: the detach callback clears the previous snapshot to
all zeros, so any non-zero keycode re-submitted afterwards registers as
new; the caps-lock flag is left unchanged rather than reset. -/
theorem C1_detach_reset :
    ∀ (st : KbdState),
      (tuh_hid_umount_cb st).prev_report = empty_report
      ∧ (tuh_hid_umount_cb st).caps_lock = st.caps_lock
      ∧ ∀ k : Nat, k ≠ 0 → is_new_key k (tuh_hid_umount_cb st).prev_report = true := by
  intro st
  refine ⟨rfl, rfl, fun k hk => ?_⟩
  rw [is_new_key_iff_not_mem]
  show k ∉ ([0, 0, 0, 0, 0, 0] : List Nat)
  simp
  omega

theorem C1_detach_reset_witness :
    (4 ≠ 0)
    ∧ ((tuh_hid_umount_cb
         { prev_report := { modifier := 2, keycode := [4, 5, 0, 0, 0, 0] },
           caps_lock := true }).prev_report = empty_report
       ∧ (tuh_hid_umount_cb
         { prev_report := { modifier := 2, keycode := [4, 5, 0, 0, 0, 0] },
           caps_lock := true }).caps_lock = true
       ∧ is_new_key 4 (tuh_hid_umount_cb
         { prev_report := { modifier := 2, keycode := [4, 5, 0, 0, 0, 0] },
           caps_lock := true }).prev_report = true) :=
  ⟨by decide, by
    have h := C1_detach_reset
      { prev_report := { modifier := 2, keycode := [4, 5, 0, 0, 0, 0] },
        caps_lock := true }
    exact ⟨h.1, h.2.1, h.2.2 4 (by decide)⟩⟩

lemma run_caps_held :
    ∀ (rs : List hid_keyboard_report_t) (st : KbdState),
      HID_KEY_CAPS_LOCK ∈ st.prev_report.keycode →
      (∀ r ∈ rs, HID_KEY_CAPS_LOCK ∈ r.keycode) →
      (run_reports st rs).1.caps_lock = st.caps_lock
      ∧ HID_KEY_CAPS_LOCK ∈ (run_reports st rs).1.prev_report.keycode
  | [], st, h, _ => ⟨rfl, h⟩
  | r :: rs, st, h, hall => by
    have hc : caps_after r st.prev_report st.caps_lock = st.caps_lock := by
      rw [caps_after, foldl_toggle, if_neg]
      rintro ⟨h1, -⟩
      exact (is_new_key_iff_not_mem _ _).mp h1 h
    have step : (process_kbd_report st r).1
        = { prev_report := r, caps_lock := st.caps_lock } := by
      simp [process_kbd_report, hc]
    have tail := run_caps_held rs { prev_report := r, caps_lock := st.caps_lock }
      (hall r (by simp)) (fun r' h' => hall r' (by simp [h']))
    simp only [run_reports]
    rw [step]
    exact tail

/-- Claim C4: under the no-duplicate-slots precondition, a report that
newly presses caps lock toggles the flag exactly once, and across any
following reports that keep the caps-lock key held the flag is never
toggled again. -/
theorem C4_caps_toggle_once :
    ∀ (st : KbdState) (R : hid_keyboard_report_t) (rs : List hid_keyboard_report_t),
      R.keycode.count HID_KEY_CAPS_LOCK ≤ 1 →
      HID_KEY_CAPS_LOCK ∈ R.keycode →
      HID_KEY_CAPS_LOCK ∉ st.prev_report.keycode →
      (∀ r ∈ rs, HID_KEY_CAPS_LOCK ∈ r.keycode) →
      (process_kbd_report st R).1.caps_lock = !st.caps_lock
      ∧ (run_reports (process_kbd_report st R).1 rs).1.caps_lock = !st.caps_lock := by
  intro st R rs hcount hmem hnot hall
  have hnew : is_new_key HID_KEY_CAPS_LOCK st.prev_report = true :=
    (is_new_key_iff_not_mem _ _).mpr hnot
  have hpos : 0 < R.keycode.count HID_KEY_CAPS_LOCK := List.count_pos_iff.mpr hmem
  have h1 : (process_kbd_report st R).1.caps_lock = !st.caps_lock := by
    show caps_after R st.prev_report st.caps_lock = _
    rw [caps_after, foldl_toggle, if_pos ⟨hnew, by omega⟩]
  have hprev : (process_kbd_report st R).1.prev_report = R := rfl
  have tail := run_caps_held rs (process_kbd_report st R).1 (by rw [hprev]; exact hmem) hall
  exact ⟨h1, by rw [tail.1, h1]⟩

theorem C4_caps_toggle_once_witness :
    (({ modifier := 0, keycode := [57, 0, 0, 0, 0, 0] } :
        hid_keyboard_report_t).keycode.count HID_KEY_CAPS_LOCK ≤ 1)
    ∧ (HID_KEY_CAPS_LOCK ∈ ({ modifier := 0, keycode := [57, 0, 0, 0, 0, 0] } :
        hid_keyboard_report_t).keycode)
    ∧ (HID_KEY_CAPS_LOCK ∉ ({ prev_report := empty_report, caps_lock := false } :
        KbdState).prev_report.keycode)
    ∧ ((process_kbd_report { prev_report := empty_report, caps_lock := false }
          { modifier := 0, keycode := [57, 0, 0, 0, 0, 0] }).1.caps_lock = !false
       ∧ (run_reports
            (process_kbd_report { prev_report := empty_report, caps_lock := false }
              { modifier := 0, keycode := [57, 0, 0, 0, 0, 0] }).1
            [{ modifier := 0, keycode := [57, 0, 0, 0, 0, 0] }]).1.caps_lock = !false) :=
  ⟨by decide, by decide, by decide,
   C4_caps_toggle_once { prev_report := empty_report, caps_lock := false }
     { modifier := 0, keycode := [57, 0, 0, 0, 0, 0] }
     [{ modifier := 0, keycode := [57, 0, 0, 0, 0, 0] }]
     (by decide) (by decide) (by decide) (by decide)⟩

lemma getD_out_of_range (l : List Nat) (k : Nat) (h : l.length ≤ k) :
    l.getD k 0 = 0 :=
  List.getD_eq_default l 0 h

lemma hid_to_ascii_fixed (k : Nat) (hk : k < KEYCODE_TABLE_SIZE)
    (hil : is_letter_b k = false)
    (heq : keycode_to_ascii_shift.getD k 0 = keycode_to_ascii.getD k 0) :
    ∀ (m : Nat) (c : Bool), hid_to_ascii c k m = keycode_to_ascii.getD k 0 := by
  intro m c
  unfold hid_to_ascii
  rw [if_neg (by omega)]
  simp only [hil, Bool.and_false, Bool.if_false_right, Bool.and_true]
  cases hs : shift_b m
  case false => simp [hs]
  case true =>
    simp [hs]
    simpa using heq

/-- Claim C5: without control held, the table consulted by hid_to_ascii is
selected by rawShift XOR (capsLock AND isLetter); in particular the letter
a with caps lock on maps to 65 and with shift also held maps to 97. -/
theorem C5_effective_shift :
    (∀ (k m : Nat) (c : Bool), ctrl_b m = false →
        hid_to_ascii c k m = table_lookup (Bool.xor (shift_b m) (c && is_letter_b k)) k)
    ∧ hid_to_ascii true HID_KEY_A 0 = 65
    ∧ hid_to_ascii true HID_KEY_A KEYBOARD_MODIFIER_LEFTSHIFT = 97 := by
  refine ⟨?_, by decide, by decide⟩
  intro k m c hctrl
  unfold hid_to_ascii table_lookup
  by_cases hk : KEYCODE_TABLE_SIZE ≤ k
  · rw [if_pos hk]
    have h1 : keycode_to_ascii.getD k 0 = 0 := getD_out_of_range _ _ hk
    have h2 : keycode_to_ascii_shift.getD k 0 = 0 := getD_out_of_range _ _ hk
    cases hx : Bool.xor (shift_b m) (c && is_letter_b k)
    · rw [if_neg (by simp)]
      exact h1.symm
    · rw [if_pos rfl]
      exact h2.symm
  · rw [if_neg hk]
    simp only [hctrl, Bool.false_and, Bool.if_false_left, Bool.not_false, Bool.and_true]
    cases hci : c && is_letter_b k
    · simp [hci, Bool.xor_false]
    · simp [hci, Bool.xor_true]

theorem C5_effective_shift_witness :
    (ctrl_b 0 = false)
    ∧ hid_to_ascii true 4 0 = table_lookup (Bool.xor (shift_b 0) (true && is_letter_b 4)) 4 :=
  ⟨by decide, C5_effective_shift.1 4 0 true (by decide)⟩

/-- Claim C6: control plus a letter keycode yields the canonical control
code keycode - HID_KEY_A + 1, in 1 .. 26, regardless of shift and caps. -/
theorem C6_ctrl_letter :
    ∀ (k m : Nat) (c : Bool), HID_KEY_A ≤ k → k ≤ HID_KEY_Z → ctrl_b m = true →
      hid_to_ascii c k m = (k - HID_KEY_A) + 1
      ∧ 1 ≤ (k - HID_KEY_A) + 1 ∧ (k - HID_KEY_A) + 1 ≤ 26 := by
  intro k m c h1 h2 hctrl
  have h1' : 4 ≤ k := h1
  have h2' : k ≤ 29 := h2
  have hil : is_letter_b k = true := by
    simp [is_letter_b, HID_KEY_A, HID_KEY_Z]
    omega
  have hsz : KEYCODE_TABLE_SIZE = 83 := rfl
  refine ⟨?_, by simp only [HID_KEY_A]; omega, by simp only [HID_KEY_A]; omega⟩
  unfold hid_to_ascii
  rw [if_neg (by omega)]
  simp [hil, hctrl]

theorem C6_ctrl_letter_witness :
    (HID_KEY_A ≤ 6 ∧ 6 ≤ HID_KEY_Z ∧ ctrl_b 1 = true)
    ∧ (hid_to_ascii false 6 1 = (6 - HID_KEY_A) + 1
       ∧ 1 ≤ (6 - HID_KEY_A) + 1 ∧ (6 - HID_KEY_A) + 1 ≤ 26) :=
  ⟨⟨by decide, by decide, by decide⟩,
   C6_ctrl_letter 6 1 false (by decide) (by decide) (by decide)⟩

/-- Claim C9: the four arrow keycodes map to 0x08, 0x0A, 0x0B and 0x15,
for every modifier byte and caps-lock state. -/
theorem C9_arrows :
    ∀ (m : Nat) (c : Bool),
      hid_to_ascii c 0x50 m = 0x08 ∧ hid_to_ascii c 0x51 m = 0x0A
      ∧ hid_to_ascii c 0x52 m = 0x0B ∧ hid_to_ascii c 0x4F m = 0x15 := by
  intro m c
  exact ⟨(hid_to_ascii_fixed 0x50 (by decide) (by decide) (by decide) m c).trans (by decide),
         (hid_to_ascii_fixed 0x51 (by decide) (by decide) (by decide) m c).trans (by decide),
         (hid_to_ascii_fixed 0x52 (by decide) (by decide) (by decide) m c).trans (by decide),
         (hid_to_ascii_fixed 0x4F (by decide) (by decide) (by decide) m c).trans (by decide)⟩

/-- Claim C10: the caps-lock keycode 0x39 translates to 0 for every
modifier byte and caps-lock state, and the per-slot loop emits no event
for it. -/
theorem C10_caps_key_silent :
    (∀ (m : Nat) (c : Bool), hid_to_ascii c HID_KEY_CAPS_LOCK m = 0)
    ∧ (∀ (caps : Bool) (prev : hid_keyboard_report_t) (m : Nat),
        process_slot caps prev m HID_KEY_CAPS_LOCK = []) := by
  have h0 : ∀ (m : Nat) (c : Bool), hid_to_ascii c 57 m = 0 := fun m c =>
    (hid_to_ascii_fixed 57 (by decide) (by decide) (by decide) m c).trans (by decide)
  refine ⟨h0, ?_⟩
  intro caps prev m
  cases hn : is_new_key HID_KEY_CAPS_LOCK prev <;>
    simp [process_slot, HID_KEY_CAPS_LOCK, HID_KEY_PRINT_SCREEN, hn, h0 m caps]

lemma letters_assigned :
    ∀ j, j < 83 → is_letter_b j = true → keycode_to_ascii.getD j 0 ≠ 0 := by
  decide

/-- Claim C8: out-of-range keycodes and in-range keycodes unassigned in
both tables translate to 0, and a slot whose translation is 0 produces no
strobe event. -/
theorem C8_unmapped :
    (∀ (k m : Nat) (c : Bool), KEYCODE_TABLE_SIZE ≤ k → hid_to_ascii c k m = 0)
    ∧ (∀ (k m : Nat) (c : Bool),
        keycode_to_ascii.getD k 0 = 0 → keycode_to_ascii_shift.getD k 0 = 0 →
        hid_to_ascii c k m = 0)
    ∧ (∀ (caps : Bool) (prev : hid_keyboard_report_t) (m k a : Nat),
        hid_to_ascii caps k m = 0 → OutEvent.strobe a ∉ process_slot caps prev m k) := by
  refine ⟨?_, ?_, ?_⟩
  · intro k m c hk
    unfold hid_to_ascii
    rw [if_pos hk]
  · intro k m c h1 h2
    by_cases hk : KEYCODE_TABLE_SIZE ≤ k
    · unfold hid_to_ascii
      rw [if_pos hk]
    · have hk' : k < 83 := by
        have : KEYCODE_TABLE_SIZE = 83 := rfl
        omega
      have hil : is_letter_b k = false := by
        rcases Bool.eq_false_or_eq_true (is_letter_b k) with ht | hf
        · exact absurd h1 (letters_assigned k hk' ht)
        · exact hf
      rw [hid_to_ascii_fixed k (by omega) hil (h2.trans h1.symm) m c]
      exact h1
  · intro caps prev m k a h
    unfold process_slot
    split
    · simp
    · split
      · simp
      · split
        · simp
        · simp [h]

theorem C8_unmapped_witness :
    (KEYCODE_TABLE_SIZE ≤ 100 ∧ hid_to_ascii false 100 0 = 0)
    ∧ (keycode_to_ascii.getD 57 0 = 0 ∧ keycode_to_ascii_shift.getD 57 0 = 0
       ∧ hid_to_ascii true 57 3 = 0)
    ∧ (hid_to_ascii false 57 0 = 0
       ∧ OutEvent.strobe 65 ∉ process_slot false empty_report 0 57) :=
  ⟨⟨by decide, C8_unmapped.1 100 0 false (by decide)⟩,
   ⟨by decide, by decide, C8_unmapped.2.1 57 3 true (by decide) (by decide)⟩,
   ⟨by decide, C8_unmapped.2.2 false empty_report 0 57 65 (by decide)⟩⟩

/-- Claim C7: a new print-screen keycode with a control bit set emits
exactly one reset event for its slot and no character, and the remaining
slots are processed as usual. -/
theorem C7_reset_combo :
    ∀ (st : KbdState) (R : hid_keyboard_report_t) (ks1 ks2 : List Nat),
      R.keycode = ks1 ++ HID_KEY_PRINT_SCREEN :: ks2 →
      ctrl_b R.modifier = true →
      is_new_key HID_KEY_PRINT_SCREEN st.prev_report = true →
      (process_kbd_report st R).2 =
        slot_events (caps_after R st.prev_report st.caps_lock)
            st.prev_report R.modifier ks1
        ++ OutEvent.reset ::
           slot_events (caps_after R st.prev_report st.caps_lock)
             st.prev_report R.modifier ks2 := by
  intro st R ks1 ks2 hk hctrl hnew
  have hnew' : is_new_key 70 st.prev_report = true := hnew
  have hps : process_slot (caps_after R st.prev_report st.caps_lock)
      st.prev_report R.modifier HID_KEY_PRINT_SCREEN = [OutEvent.reset] := by
    simp [process_slot, HID_KEY_PRINT_SCREEN, hnew', hctrl]
  show slot_events _ st.prev_report R.modifier R.keycode = _
  rw [hk]
  simp only [slot_events, List.map_append, List.flatten_append, List.map_cons,
    List.flatten_cons, hps]
  simp

theorem C7_reset_combo_witness :
    (({ modifier := 1, keycode := [70, 0, 0, 0, 0, 0] } :
        hid_keyboard_report_t).keycode = [] ++ HID_KEY_PRINT_SCREEN :: [0, 0, 0, 0, 0]
     ∧ ctrl_b ({ modifier := 1, keycode := [70, 0, 0, 0, 0, 0] } :
        hid_keyboard_report_t).modifier = true
     ∧ is_new_key HID_KEY_PRINT_SCREEN
         ({ prev_report := empty_report, caps_lock := false } : KbdState).prev_report = true)
    ∧ (process_kbd_report { prev_report := empty_report, caps_lock := false }
         { modifier := 1, keycode := [70, 0, 0, 0, 0, 0] }).2 =
       slot_events
         (caps_after { modifier := 1, keycode := [70, 0, 0, 0, 0, 0] }
           ({ prev_report := empty_report, caps_lock := false } : KbdState).prev_report
           ({ prev_report := empty_report, caps_lock := false } : KbdState).caps_lock)
         ({ prev_report := empty_report, caps_lock := false } : KbdState).prev_report
         ({ modifier := 1, keycode := [70, 0, 0, 0, 0, 0] } :
           hid_keyboard_report_t).modifier []
       ++ OutEvent.reset ::
          slot_events
            (caps_after { modifier := 1, keycode := [70, 0, 0, 0, 0, 0] }
              ({ prev_report := empty_report, caps_lock := false } : KbdState).prev_report
              ({ prev_report := empty_report, caps_lock := false } : KbdState).caps_lock)
            ({ prev_report := empty_report, caps_lock := false } : KbdState).prev_report
            ({ modifier := 1, keycode := [70, 0, 0, 0, 0, 0] } :
              hid_keyboard_report_t).modifier [0, 0, 0, 0, 0] :=
  ⟨⟨by decide, by decide, by decide⟩,
   C7_reset_combo { prev_report := empty_report, caps_lock := false }
     { modifier := 1, keycode := [70, 0, 0, 0, 0, 0] } [] [0, 0, 0, 0, 0]
     (by decide) (by decide) (by decide)⟩
